import Mathlib

/-!
Verification of `rio_tiler/cbers.py` (CBERS scene → web-mercator tiles).

The module under `src/` is an orchestration layer: it parses a scene id into a
storage key, opens rasters through `rasterio`, checks tile/scene intersection,
fans out per-band work through `concurrent.futures`, and memoizes each public
function with `cachetools.func.lru_cache`.  We embed it shallowly: every
external effect (raster open, coordinate transform, tile-index math, per-band
workers) is a field of an `Env` record, fallible calls return `Except PyErr`,
and `list(executor.map f xs)` — which yields results in submission order and
re-raises the first exception in that order — is an order-preserving
effectful map over the list.
-/

/-- Python exception values that can propagate out of the embedded functions. -/
inductive PyErr where
  | parseError (msg : String)
  | ioError (msg : String)
  | tileOutsideBounds (msg : String)
  | valueError (msg : String)
  | excOther (msg : String)
deriving DecidableEq, Repr

/-- An axis-aligned bounding box `(west, south, east, north)`, the shape of
`src.bounds`, of `transform_bounds` results and of mercantile tile boxes.
Coordinates are exact rationals standing in for Python floats. -/
structure Rect where
  west : Rat
  south : Rat
  east : Rat
  north : Rat
deriving DecidableEq, Repr

/-- What `rasterio.open` exposes of a raster dataset that this module reads:
its coordinate reference system and its native bounds. -/
structure Raster where
  crs : String
  bounds : Rect
deriving DecidableEq, Repr

/-- A single band's pixel grid as produced by a tile worker. -/
abbrev Grid := List (List Int)

/-- The external collaborators and the `rio_tiler.utils` helpers that
`cbers.py` calls.  `rasterio`, `transform_bounds`, `mercantile` and the two
workers are external or live in `rio_tiler.utils`, which is not under `src/`;
they are kept abstract here.  Modelled from the spec: `cbers_parse_scene_id`
and `cbersl_parse_scene_id` are the Scene Address Resolver (deterministic
storage key, ParseError on malformed input, no I/O); `tile_band_worker` is the
windowed read producing one band grid; `sentinel_min_max_worker` computes the
percentile min/max cuts for one band; `tileGeoBounds` is the tile-index
collaborator converting a `(z, x, y)` tile to its bounding box for the
containment check. -/
structure Env where
  cbers_parse_scene_id : String → Except PyErr String
  cbersl_parse_scene_id : String → Except PyErr String
  rasterOpen : String → Except PyErr Raster
  transform_bounds : String → String → Rect → Nat → Rect
  tileGeoBounds : Int → Int → Int → Rect
  xy_bounds : Int → Int → Int → Rect
  tile_band_worker : String → Rect → Nat → Except PyErr Grid
  sentinel_min_max_worker : String → Int → Int → Except PyErr (Int × Int)

def CBERS_BUCKET : String := "s3://cbers-pds"

/-- `'{}/{}'.format(CBERS_BUCKET, scene_params['key'])`. -/
def cbersAddress (key : String) : String := CBERS_BUCKET ++ "/" ++ key

/-- 2D axis-aligned bounding-box overlap test between two closed boxes. -/
def rectIntersects (a b : Rect) : Bool :=
  decide (a.west ≤ b.east ∧ b.west ≤ a.east ∧ a.south ≤ b.north ∧ b.south ≤ a.north)

/-- Modelled from the spec: `rio_tiler.utils.tile_exists` is not under `src/`.
Per the spec's Tile Fetcher contract, the requested tile is converted to its
bounding box (tile-index collaborator) and tested for 2D axis-aligned box
intersection with the scene bounds; `tile_exists` is true exactly when the two
boxes overlap. Argument order follows the call site
`utils.tile_exists(wgs_bounds, tile_z, tile_x, tile_y)`. -/
def tile_exists (env : Env) (b : Rect) (tile_z tile_x tile_y : Int) : Bool :=
  rectIntersects (env.tileGeoBounds tile_z tile_x tile_y) b

/-- Result record of `bounds`: the dict `{'sceneid': ..., 'bounds': ...}`. -/
structure Info where
  sceneid : String
  bounds : Rect
deriving DecidableEq, Repr

/-- `rio_tiler.cbers.bounds` (without its `lru_cache` decorator, modelled
separately): parse the scene id, open `<address>/<sceneid>_BAND5.tif`, and
transform its native bounds to `epsg:4326` with `densify_pts=21`. -/
def bounds (env : Env) (sceneid : String) : Except PyErr Info := do
  let key ← env.cbers_parse_scene_id sceneid
  let cbers_address := cbersAddress key
  let src ← env.rasterOpen (cbers_address ++ "/" ++ sceneid ++ "_BAND5.tif")
  let wgs_bounds := env.transform_bounds src.crs "epsg:4326" src.bounds 21
  return ⟨sceneid, wgs_bounds⟩

/-- `list(executor.map f xs)` over a `ThreadPoolExecutor`: results come back
in submission order regardless of completion order, and iterating the map
re-raises the first exception in submission order, aborting the whole call
with no partial list. -/
def exceptMap (f : α → Except PyErr β) : List α → Except PyErr (List β)
  | [] => .ok []
  | a :: as =>
    match f a with
    | .error e => .error e
    | .ok b =>
      match exceptMap f as with
      | .error e => .error e
      | .ok bs => .ok (b :: bs)

/-- One step of Python dict construction: assigning to an existing key
overwrites its value in place (insertion order kept), a new key is appended. -/
def dictInsert (d : List (String × α)) (k : String) (v : α) : List (String × α) :=
  if d.any (fun p => p.1 == k) then
    d.map (fun p => if p.1 == k then (k, v) else p)
  else d ++ [(k, v)]

/-- `dict(pairs)` in Python: later pairs with a duplicate key overwrite the
earlier value (last-write-wins), keys keep first-insertion order. -/
def pydict (l : List (String × α)) : List (String × α) :=
  l.foldl (fun d p => dictInsert d p.1 p.2) []

/-- `d[k]` lookup on the embedded dict. -/
def dictLookup (d : List (String × α)) (k : String) : Option α :=
  (d.find? (fun p => p.1 == k)).map (·.2)

/-- The fixed band list of `metadata`: `bands = ['5', '6', '6', '8']`
(note the duplicated `'6'`). -/
def metadataBands : List String := ["5", "6", "6", "8"]

/-- `'{}/preview.jp2'.format(cbers_address)`. -/
def previewPath (cbers_address : String) : String := cbers_address ++ "/preview.jp2"

/-- Result record of `metadata`: sceneid, bounds, and the `rgbMinMax` dict. -/
structure MetaInfo where
  sceneid : String
  bounds : Rect
  rgbMinMax : List (String × (Int × Int))
deriving DecidableEq, Repr

/-- `rio_tiler.cbers.metadata` (without its `lru_cache` decorator, modelled
separately; Python defaults `pmin=2, pmax=98`): parse via
`utils.cbersl_parse_scene_id`, open `<address>/preview.jp2` for the bounds,
then map `sentinel_min_max_worker` over the fixed band list (2 workers) and
build the `rgbMinMax` dict with `dict(zip(bands, responses))`. -/
def metadata (env : Env) (sceneid : String) (pmin pmax : Int) : Except PyErr MetaInfo := do
  let key ← env.cbersl_parse_scene_id sceneid
  let cbers_address := cbersAddress key
  let src ← env.rasterOpen (previewPath cbers_address)
  let wgs_bounds := env.transform_bounds src.crs "epsg:4326" src.bounds 21
  let addresses := metadataBands.map
    (fun band => cbers_address ++ "/" ++ sceneid ++ "_BAND" ++ band ++ ".tif")
  let responses ← exceptMap (fun a => env.sentinel_min_max_worker a pmin pmax) addresses
  return ⟨sceneid, wgs_bounds, pydict (metadataBands.zip responses)⟩

/-- The `rgb` argument of `tile`: Python accepts either a bare string or a
tuple of band-id strings. -/
inductive Rgb where
  | str (b : String)
  | tup (bs : List String)
deriving DecidableEq, Repr

/-- The coercion at the top of `tile`:
`if isinstance(rgb, str): rgb = tuple((rgb,))`. -/
def Rgb.toList : Rgb → List String
  | .str b => [b]
  | .tup bs => bs

/-- The message of the `TileOutsideBounds` exception raised by `tile`. -/
def tobMsg (tile_z tile_x tile_y : Int) : String :=
  s!"Tile {tile_z}/{tile_x}/{tile_y} is outside image bounds"

/-- Step 1 of `tile` (lines 115–120): parse the scene id and compute the
scene's `wgs_bounds` from the `_BAND5.tif` reference raster, `densify_pts=21`.
The storage key is returned alongside because the rest of `tile` uses it. -/
def tileStep1 (env : Env) (sceneid : String) : Except PyErr (String × Rect) := do
  let key ← env.cbers_parse_scene_id sceneid
  let src ← env.rasterOpen (cbersAddress key ++ "/" ++ sceneid ++ "_BAND5.tif")
  return (key, env.transform_bounds src.crs "epsg:4326" src.bounds 21)

/-- `'{}/{}_BAND{}.tif'.format(cbers_address, sceneid, band)`. -/
def bandPath (key sceneid band : String) : String :=
  cbersAddress key ++ "/" ++ sceneid ++ "_BAND" ++ band ++ ".tif"

/-- `np.stack` on the list of per-band grids: numpy raises
`ValueError("need at least one array to stack")` on an empty sequence and
otherwise returns the bands stacked in list order. -/
def np_stack (gs : List Grid) : Except PyErr (List Grid) :=
  if gs.isEmpty then .error (.valueError "need at least one array to stack") else .ok gs

/-- The fan-out part of `tile` (lines 126–135): compute the mercator tile
bounds, build the per-band addresses in `rgb` order, run `tile_band_worker`
over them, and `np.stack` the results. -/
def tileFanOut (env : Env) (key sceneid : String) (tile_x tile_y tile_z : Int)
    (rgbT : List String) (tilesize : Nat) : Except PyErr (List Grid) := do
  let tile_bounds := env.xy_bounds tile_x tile_y tile_z
  let addresses := rgbT.map (fun band => bandPath key sceneid band)
  let grids ← exceptMap (fun a => env.tile_band_worker a tile_bounds tilesize) addresses
  np_stack grids

/-- `rio_tiler.cbers.tile` (without its `lru_cache` decorator, modelled
separately; Python defaults `rgb=('5','6','7'), tilesize=256`): coerce a bare
string band to a one-element tuple, resolve the scene bounds from the
reference band, raise `TileOutsideBounds` when the tile does not intersect
them, and otherwise fan out the per-band reads and stack the grids. -/
def tile (env : Env) (sceneid : String) (tile_x tile_y tile_z : Int) (rgb : Rgb)
    (tilesize : Nat) : Except PyErr (List Grid) := do
  let rgbT := rgb.toList
  let (key, wgs_bounds) ← tileStep1 env sceneid
  if tile_exists env wgs_bounds tile_z tile_x tile_y then
    tileFanOut env key sceneid tile_x tile_y tile_z rgbT tilesize
  else
    .error (.tileOutsideBounds (tobMsg tile_z tile_x tile_y))

/-- Default `maxsize` of `cachetools.func.lru_cache` — the decorator is
applied as `@lru_cache()`, i.e. with this default, not with `maxsize=None`. -/
def lru_maxsize : Nat := 128

/-- The state of one `lru_cache` wrapper: entries most-recently-used first. -/
structure LRUCache (K V : Type) where
  entries : List (K × V)
deriving DecidableEq, Repr

/-- Cache lookup (without the recency update), for stating properties. -/
def LRUCache.get [DecidableEq K] (c : LRUCache K V) (k : K) : Option V :=
  (c.entries.find? (fun p => decide (p.1 = k))).map (·.2)

/-- Modelled from `cachetools.func.lru_cache` semantics at its default
`maxsize=128`: a hit returns the cached value and refreshes the key's
recency; a miss computes the value; a raised exception is not cached; a
computed value is stored and, when the cache exceeds `maxsize`, the
least-recently-used entry is evicted. -/
def cachedCallE [DecidableEq K] (c : LRUCache K V) (k : K)
    (f : Unit → Except PyErr V) : Except PyErr V × LRUCache K V :=
  match c.entries.find? (fun p => decide (p.1 = k)) with
  | some p => (.ok p.2, ⟨(k, p.2) :: c.entries.filter (fun q => decide (¬ q.1 = k))⟩)
  | none =>
    match f () with
    | .error e => (.error e, c)
    | .ok v => (.ok v, ⟨((k, v) :: c.entries).take lru_maxsize⟩)

/-- `@lru_cache()`-wrapped `bounds`, keyed by its argument tuple `(sceneid)`. -/
def cachedBounds (c : LRUCache String Info) (env : Env) (sceneid : String) :
    Except PyErr Info × LRUCache String Info :=
  cachedCallE c sceneid (fun _ => bounds env sceneid)

/-- `@lru_cache()`-wrapped `metadata`, keyed by `(sceneid, pmin, pmax)`. -/
def cachedMetadata (c : LRUCache (String × Int × Int) MetaInfo) (env : Env)
    (sceneid : String) (pmin pmax : Int) :
    Except PyErr MetaInfo × LRUCache (String × Int × Int) MetaInfo :=
  cachedCallE c (sceneid, pmin, pmax) (fun _ => metadata env sceneid pmin pmax)

/-- `@lru_cache()`-wrapped `tile`, keyed by
`(sceneid, tile_x, tile_y, tile_z, rgb, tilesize)`. -/
def cachedTile (c : LRUCache (String × Int × Int × Int × Rgb × Nat) (List Grid))
    (env : Env) (sceneid : String) (tile_x tile_y tile_z : Int) (rgb : Rgb)
    (tilesize : Nat) :
    Except PyErr (List Grid) × LRUCache (String × Int × Int × Int × Rgb × Nat) (List Grid) :=
  cachedCallE c (sceneid, tile_x, tile_y, tile_z, rgb, tilesize)
    (fun _ => tile env sceneid tile_x tile_y tile_z rgb tilesize)

/-- The spec's example scene bounds `[-54.0, -25.0, -53.0, -24.0]`. -/
def rect1 : Rect := ⟨-54, -25, -53, -24⟩

/-- The same scene's bounds after the underlying asset changed. -/
def rect2 : Rect := ⟨-54, -25, -53, -23⟩

/-- A box disjoint from `rect1`, used as an out-of-bounds tile footprint. -/
def rectFar : Rect := ⟨10, 10, 11, 11⟩

/-- A concrete environment in which every call succeeds: parsing yields the
key `"K"`, every raster opens with bounds `rect1`, the bounds transform is
the identity, every tile footprint coincides with the scene box, band
workers return a constant grid and the min/max worker echoes its cuts. -/
def envA0 : Env where
  cbers_parse_scene_id := fun _ => .ok "K"
  cbersl_parse_scene_id := fun _ => .ok "K"
  rasterOpen := fun _ => .ok ⟨"epsg:32645", rect1⟩
  transform_bounds := fun _ _ r _ => r
  tileGeoBounds := fun _ _ _ => rect1
  xy_bounds := fun _ _ _ => rect1
  tile_band_worker := fun _ _ _ => .ok [[1]]
  sentinel_min_max_worker := fun _ pmin pmax => .ok (pmin, pmax)

/-- `envA0` after the remote reference raster was rewritten with new bounds
(`rect2`) during the life of the process. -/
def envB : Env :=
  { envA0 with rasterOpen := fun _ => .ok ⟨"epsg:32645", rect2⟩ }

/-- `envA0` with every requested tile's footprint disjoint from the scene. -/
def envOut : Env :=
  { envA0 with tileGeoBounds := fun _ _ _ => rectFar }

/-- `envA0` in which the band-5 tile worker and the band-8 statistics worker
fail with an `IOError` while the other bands succeed. -/
def envWFail : Env :=
  { envA0 with
    tile_band_worker := fun addr _ _ =>
      if addr = bandPath "K" "S" "5" then .error (.ioError "band 5 gone") else .ok [[1]]
    sentinel_min_max_worker := fun addr pmin pmax =>
      if addr = bandPath "K" "S" "8" then .error (.ioError "band 8 gone")
      else .ok (pmin, pmax) }

theorem except_bind_ok (a : α) (f : α → Except PyErr β) :
    (Except.ok a >>= f : Except PyErr β) = f a := rfl

theorem except_bind_error (e : PyErr) (f : α → Except PyErr β) :
    (Except.error e >>= f : Except PyErr β) = .error e := rfl

theorem except_pure (a : α) : (pure a : Except PyErr α) = .ok a := rfl

theorem exceptMap_map (f : β → Except PyErr γ) (g : α → β) :
    ∀ l : List α, exceptMap f (l.map g) = exceptMap (fun a => f (g a)) l
  | [] => rfl
  | a :: as => by
    simp only [List.map_cons, exceptMap]
    rw [exceptMap_map f g as]

theorem exceptMap_ok_length (f : α → Except PyErr β) :
    ∀ (l : List α) (r : List β), exceptMap f l = .ok r → r.length = l.length := by
  intro l
  induction l with
  | nil =>
    intro r h
    simp only [exceptMap] at h
    injection h with h
    subst h
    rfl
  | cons a as ih =>
    intro r h
    simp only [exceptMap] at h
    cases hfa : f a with
    | error e => rw [hfa] at h; exact absurd h (by simp)
    | ok b =>
      rw [hfa] at h
      cases hrest : exceptMap f as with
      | error e => rw [hrest] at h; exact absurd h (by simp)
      | ok bs =>
        rw [hrest] at h
        injection h with h
        subst h
        simp [ih bs hrest]

theorem exceptMap_ok_get? (f : α → Except PyErr β) :
    ∀ (l : List α) (r : List β), exceptMap f l = .ok r →
      ∀ (i : Nat) (a : α), l[i]? = some a → r[i]? = (f a).toOption := by
  intro l
  induction l with
  | nil => intro r h i a ha; simp at ha
  | cons x xs ih =>
    intro r h i a ha
    simp only [exceptMap] at h
    cases hfx : f x with
    | error e => rw [hfx] at h; exact absurd h (by simp)
    | ok b =>
      rw [hfx] at h
      cases hrest : exceptMap f xs with
      | error e => rw [hrest] at h; exact absurd h (by simp)
      | ok bs =>
        rw [hrest] at h
        injection h with h
        subst h
        cases i with
        | zero =>
          simp only [List.getElem?_cons_zero, Option.some.injEq] at ha
          subst ha
          simp [hfx, Except.toOption]
        | succ j =>
          simp only [List.getElem?_cons_succ] at ha ⊢
          exact ih bs hrest j a ha

theorem exceptMap_error_at (f : α → Except PyErr β) :
    ∀ (l : List α) (i : Nat) (a : α) (e : PyErr),
      l[i]? = some a → f a = .error e →
      (∀ j, j < i → ∀ a', l[j]? = some a' → ∃ b, f a' = .ok b) →
      exceptMap f l = .error e := by
  intro l
  induction l with
  | nil => intro i a e ha _ _; simp at ha
  | cons x xs ih =>
    intro i a e ha hfa hprev
    cases i with
    | zero =>
      simp only [List.getElem?_cons_zero, Option.some.injEq] at ha
      subst ha
      simp [exceptMap, hfa]
    | succ j =>
      simp only [List.getElem?_cons_succ] at ha
      obtain ⟨b, hb⟩ := hprev 0 (Nat.succ_pos j) x (by simp)
      have hrest : exceptMap f xs = .error e :=
        ih j a e ha hfa (fun k hk a' ha' =>
          hprev (k + 1) (Nat.succ_lt_succ hk) a' (by simpa using ha'))
      simp [exceptMap, hb, hrest]

/-- If `tile` returned an array, every per-band worker succeeded and the
array is exactly the ordered list of their grids. -/
theorem tile_ok_bands (env : Env) (sceneid : String) (tile_x tile_y tile_z : Int)
    (tilesize : Nat) (key : String) (bs : List String) (out : List Grid)
    (hp : env.cbers_parse_scene_id sceneid = .ok key)
    (h : tile env sceneid tile_x tile_y tile_z (Rgb.tup bs) tilesize = .ok out) :
    exceptMap (fun b => env.tile_band_worker (bandPath key sceneid b)
      (env.xy_bounds tile_x tile_y tile_z) tilesize) bs = .ok out := by
  cases ho : env.rasterOpen (cbersAddress key ++ "/" ++ sceneid ++ "_BAND5.tif") with
  | error e =>
    have hs : tileStep1 env sceneid = .error e := by
      simp [tileStep1, hp, ho, except_bind_ok]
    simp [tile, hs, except_bind_ok, except_bind_error] at h
  | ok src =>
    have hs : tileStep1 env sceneid =
        .ok (key, env.transform_bounds src.crs "epsg:4326" src.bounds 21) := by
      simp [tileStep1, hp, ho, except_bind_ok]
    cases ht : tile_exists env (env.transform_bounds src.crs "epsg:4326" src.bounds 21)
        tile_z tile_x tile_y with
    | false => simp [tile, hs, ht, except_bind_ok] at h
    | true =>
      simp only [tile, hs, ht, Rgb.toList, except_bind_ok, if_true] at h
      simp only [tileFanOut] at h
      cases hm : exceptMap (fun a => env.tile_band_worker a
          (env.xy_bounds tile_x tile_y tile_z) tilesize)
          (bs.map (fun band => bandPath key sceneid band)) with
      | error e => rw [hm, except_bind_error] at h; exact absurd h (by simp)
      | ok gs =>
        rw [hm, except_bind_ok] at h
        rw [exceptMap_map] at hm
        cases hgs : gs.isEmpty with
        | true => simp [np_stack, hgs] at h
        | false =>
          simp only [np_stack, hgs, Bool.false_eq_true, if_false, Except.ok.injEq] at h
          subst h
          exact hm

/-- C1: once the scene id parses and the reference band opens, `tile` raises
`TileOutsideBounds` exactly on the disjointness branch of the containment
check — when the tile footprint does not intersect the scene's geographic
bounds it fails with that error (never silently returning empty data), and
when it does intersect, the call is exactly the per-band fan-out. -/
theorem c1_tile_outside_bounds_iff_disjoint (env : Env) (sceneid : String)
    (tile_x tile_y tile_z : Int) (rgb : Rgb) (tilesize : Nat) (key : String) (src : Raster)
    (hp : env.cbers_parse_scene_id sceneid = .ok key)
    (ho : env.rasterOpen (cbersAddress key ++ "/" ++ sceneid ++ "_BAND5.tif") = .ok src) :
    (tile_exists env (env.transform_bounds src.crs "epsg:4326" src.bounds 21)
        tile_z tile_x tile_y = false →
      tile env sceneid tile_x tile_y tile_z rgb tilesize =
        .error (.tileOutsideBounds (tobMsg tile_z tile_x tile_y))) ∧
    (tile_exists env (env.transform_bounds src.crs "epsg:4326" src.bounds 21)
        tile_z tile_x tile_y = true →
      tile env sceneid tile_x tile_y tile_z rgb tilesize =
        tileFanOut env key sceneid tile_x tile_y tile_z rgb.toList tilesize) := by
  have hs : tileStep1 env sceneid =
      .ok (key, env.transform_bounds src.crs "epsg:4326" src.bounds 21) := by
    simp [tileStep1, hp, ho, except_bind_ok]
  constructor
  · intro ht; simp [tile, hs, ht, except_bind_ok]
  · intro ht; simp [tile, hs, ht, except_bind_ok]

theorem c1_witness :
    tile envOut "S" 1 2 3 (Rgb.tup ["5"]) 256 =
      .error (.tileOutsideBounds (tobMsg 3 1 2)) ∧
    tile envA0 "S" 1 2 3 (Rgb.tup ["5"]) 256 =
      tileFanOut envA0 "K" "S" 1 2 3 ["5"] 256 := by
  constructor
  · exact (c1_tile_outside_bounds_iff_disjoint envOut "S" 1 2 3 (Rgb.tup ["5"]) 256 "K"
      ⟨"epsg:32645", rect1⟩ rfl rfl).1 (by decide)
  · exact (c1_tile_outside_bounds_iff_disjoint envA0 "S" 1 2 3 (Rgb.tup ["5"]) 256 "K"
      ⟨"epsg:32645", rect1⟩ rfl rfl).2 (by decide)

/-- C2: a successful `tile` call stacks the per-band grids in exactly the
order the bands appear in the `rgb` tuple (the executor yields results in
submission order, independent of completion order): the output has one band
per input band, band `i` of the output is precisely the worker result for
band `i` of the input, and two calls whose band tuples are permutations of
one another return correspondingly permuted stacks. -/
theorem c2_band_order (env : Env) (sceneid : String) (tile_x tile_y tile_z : Int)
    (tilesize : Nat) (key : String) (bs : List String) (out : List Grid)
    (hp : env.cbers_parse_scene_id sceneid = .ok key)
    (h : tile env sceneid tile_x tile_y tile_z (Rgb.tup bs) tilesize = .ok out) :
    out.length = bs.length ∧
    (∀ (i : Nat) (b : String), bs[i]? = some b →
      out[i]? = (env.tile_band_worker (bandPath key sceneid b)
        (env.xy_bounds tile_x tile_y tile_z) tilesize).toOption) ∧
    (∀ (bs' : List String) (out' : List Grid),
      tile env sceneid tile_x tile_y tile_z (Rgb.tup bs') tilesize = .ok out' →
      ∀ (i j : Nat) (b : String), bs[i]? = some b → bs'[j]? = some b →
        out[i]? = out'[j]?) := by
  have hb := tile_ok_bands env sceneid tile_x tile_y tile_z tilesize key bs out hp h
  refine ⟨exceptMap_ok_length _ bs out hb,
    fun i b hib => exceptMap_ok_get? _ bs out hb i b hib, ?_⟩
  intro bs' out' h' i j b hib hjb
  have hb' := tile_ok_bands env sceneid tile_x tile_y tile_z tilesize key bs' out' hp h'
  rw [exceptMap_ok_get? _ bs out hb i b hib, exceptMap_ok_get? _ bs' out' hb' j b hjb]

theorem c2_witness :
    ([[[1]], [[1]]] : List Grid)[0]? =
      (envA0.tile_band_worker (bandPath "K" "S" "6") (envA0.xy_bounds 0 0 1) 256).toOption := by
  exact (c2_band_order envA0 "S" 0 0 1 256 "K" ["6", "5"] [[[1]], [[1]]]
    rfl rfl).2.1 0 "6" rfl

/-- C6: a bare string band argument is coerced to the one-element tuple, so
the two calls are literally the same computation. -/
theorem c6_rgb_string_coercion (env : Env) (sceneid : String)
    (tile_x tile_y tile_z : Int) (b : String) (tilesize : Nat) :
    tile env sceneid tile_x tile_y tile_z (Rgb.str b) tilesize =
    tile env sceneid tile_x tile_y tile_z (Rgb.tup [b]) tilesize := rfl

/-- C7: step 1 of `tile` — parse, open the fixed `_BAND5.tif` reference
band, densified transform to `epsg:4326` — computes exactly the geographic
bounds that `bounds` reports for the same scene id, failure cases included. -/
theorem c7_tile_step1_equals_bounds (env : Env) (sceneid : String) :
    Except.map Prod.snd (tileStep1 env sceneid) =
    Except.map Info.bounds (bounds env sceneid) := by
  cases hp : env.cbers_parse_scene_id sceneid with
  | error e => simp [tileStep1, bounds, hp, except_bind_error, Except.map]
  | ok key =>
    cases ho : env.rasterOpen (cbersAddress key ++ "/" ++ sceneid ++ "_BAND5.tif") with
    | error e =>
      simp [tileStep1, bounds, hp, ho, except_bind_ok, except_bind_error, Except.map]
    | ok src =>
      simp [tileStep1, bounds, hp, ho, except_bind_ok, except_pure, Except.map]

/-- C10: with an empty band tuple `tile` can never return an array: whatever
the environment does, the call ends in an exception (a parse error, an open
error, `TileOutsideBounds`, or numpy's `ValueError` from stacking an empty
sequence) — there is no zero-band success path. -/
theorem c10_empty_rgb_always_raises (env : Env) (sceneid : String)
    (tile_x tile_y tile_z : Int) (tilesize : Nat) :
    ∃ e, tile env sceneid tile_x tile_y tile_z (Rgb.tup []) tilesize = .error e := by
  cases hs : tileStep1 env sceneid with
  | error e => exact ⟨e, by simp [tile, hs, except_bind_error]⟩
  | ok kw =>
    obtain ⟨key, wgs⟩ := kw
    cases ht : tile_exists env wgs tile_z tile_x tile_y with
    | false =>
      exact ⟨.tileOutsideBounds (tobMsg tile_z tile_x tile_y),
        by simp [tile, hs, ht, except_bind_ok]⟩
    | true =>
      refine ⟨.valueError "need at least one array to stack", ?_⟩
      simp [tile, hs, ht, except_bind_ok, Rgb.toList, tileFanOut, exceptMap, np_stack]

theorem except_toOption_eq_some (x : Except PyErr α) (a : α) :
    x.toOption = some a ↔ x = .ok a := by
  cases x <;> simp [Except.toOption]

theorem string_last_append (a b : String) (h : b.data ≠ []) :
    (a ++ b).data.getLast? = b.data.getLast? := by
  rw [String.data_append]
  exact List.getLast?_append_of_ne_nil _ h

/-- `envA0` whose scene-id resolver rejects every id as malformed. -/
def envParseFail : Env :=
  { envA0 with
    cbers_parse_scene_id := fun _ => .error (.parseError "bad scene id")
    cbersl_parse_scene_id := fun _ => .error (.parseError "bad scene id") }

/-- `envA0` in which only the scene's `preview.jp2` asset is unreachable. -/
def envPFail : Env :=
  { envA0 with
    rasterOpen := fun addr =>
      if addr = previewPath (cbersAddress "K") then .error (.ioError "preview gone")
      else .ok ⟨"epsg:32645", rect1⟩ }

/-- `envA0` in which no raster asset can be opened at all. -/
def envOpenFail : Env :=
  { envA0 with rasterOpen := fun _ => .error (.ioError "no asset") }

/-- C3: `metadata` resolves the scene bounds from the low-resolution
`preview.jp2` asset: a malformed id fails at parsing before any open; for a
well-formed id the preview open is the first fallible step and its `IOError`
propagates verbatim; when the preview opens (and the band workers succeed)
the returned bounds are the densified transform of the preview raster's
bounds, so no failure precedes the preview open; and the preview path is
never the full-resolution `_BAND5.tif` reference path. -/
theorem c3_metadata_preview_bounds (env : Env) (sceneid : String) (pmin pmax : Int)
    (key : String) (src : Raster) (e e' : PyErr) (rs : List (Int × Int)) :
    (env.cbersl_parse_scene_id sceneid = .error e →
      metadata env sceneid pmin pmax = .error e) ∧
    (env.cbersl_parse_scene_id sceneid = .ok key →
      env.rasterOpen (previewPath (cbersAddress key)) = .error e' →
      metadata env sceneid pmin pmax = .error e') ∧
    (env.cbersl_parse_scene_id sceneid = .ok key →
      env.rasterOpen (previewPath (cbersAddress key)) = .ok src →
      exceptMap (fun a => env.sentinel_min_max_worker a pmin pmax)
        (metadataBands.map (fun band => bandPath key sceneid band)) = .ok rs →
      metadata env sceneid pmin pmax =
        .ok ⟨sceneid, env.transform_bounds src.crs "epsg:4326" src.bounds 21,
          pydict (metadataBands.zip rs)⟩) ∧
    previewPath (cbersAddress key) ≠ cbersAddress key ++ "/" ++ sceneid ++ "_BAND5.tif" := by
  refine ⟨?_, ?_, ?_, ?_⟩
  · intro hp; simp [metadata, hp, except_bind_error]
  · intro hp ho; simp [metadata, hp, ho, except_bind_ok, except_bind_error]
  · intro hp ho hm
    simp only [bandPath] at hm
    simp only [metadata, hp, ho, except_bind_ok]
    rw [hm, except_bind_ok]
    rfl
  · intro hEq
    have h1 : (previewPath (cbersAddress key)).data.getLast? = some '2' := by
      show (cbersAddress key ++ "/preview.jp2").data.getLast? = some '2'
      rw [string_last_append (cbersAddress key) "/preview.jp2" (by decide)]
      rfl
    have h2 : (cbersAddress key ++ "/" ++ sceneid ++ "_BAND5.tif").data.getLast? =
        some 'f' := by
      rw [string_last_append (cbersAddress key ++ "/" ++ sceneid) "_BAND5.tif" (by decide)]
      rfl
    rw [hEq, h2] at h1
    simp at h1

theorem c3_witness :
    metadata envParseFail "S" 2 98 = .error (.parseError "bad scene id") ∧
    metadata envPFail "S" 2 98 = .error (.ioError "preview gone") ∧
    metadata envA0 "S" 2 98 =
      .ok ⟨"S", rect1, pydict (metadataBands.zip [(2, 98), (2, 98), (2, 98), (2, 98)])⟩ := by
  refine ⟨?_, ?_, ?_⟩
  · exact (c3_metadata_preview_bounds envParseFail "S" 2 98 "K" ⟨"x", rect1⟩
      (.parseError "bad scene id") (.ioError "x") []).1 rfl
  · exact (c3_metadata_preview_bounds envPFail "S" 2 98 "K" ⟨"x", rect1⟩
      (.ioError "x") (.ioError "preview gone") []).2.1 rfl rfl
  · exact (c3_metadata_preview_bounds envA0 "S" 2 98 "K" ⟨"epsg:32645", rect1⟩
      (.ioError "x") (.ioError "x") [(2, 98), (2, 98), (2, 98), (2, 98)]).2.2.1 rfl rfl rfl

/-- C5: the fixed band list has K = 4 entries but only 3 distinct band ids
(`'6'` is duplicated), so a successful `metadata` call returns a mapping with
exactly 3 entries keyed by band id, in which the `'6'` entry is the response
of the later duplicate; and for any responses whatsoever (so independently of
worker completion values), `dict(zip(bands, responses))` keeps the later
duplicate's value (last-write-wins, not deduplicated). -/
theorem c5_metadata_band_mapping (env : Env) (sceneid : String) (pmin pmax : Int)
    (key : String) (info : MetaInfo)
    (hp : env.cbersl_parse_scene_id sceneid = .ok key)
    (h : metadata env sceneid pmin pmax = .ok info) :
    metadataBands.length = 4 ∧ metadataBands.dedup.length = 3 ∧
    (∀ vs : List (Int × Int), vs.length = 4 →
      dictLookup (pydict (metadataBands.zip vs)) "6" = vs[2]?) ∧
    ∃ r0 r2 r3 : Int × Int,
      env.sentinel_min_max_worker (bandPath key sceneid "5") pmin pmax = .ok r0 ∧
      env.sentinel_min_max_worker (bandPath key sceneid "6") pmin pmax = .ok r2 ∧
      env.sentinel_min_max_worker (bandPath key sceneid "8") pmin pmax = .ok r3 ∧
      info.rgbMinMax = [("5", r0), ("6", r2), ("8", r3)] ∧
      info.rgbMinMax.length = 3 := by
  refine ⟨rfl, by decide, ?_, ?_⟩
  · intro vs hvs
    match vs, hvs with
    | [v0, v1, v2, v3], _ => rfl
  · cases ho : env.rasterOpen (previewPath (cbersAddress key)) with
    | error e => simp [metadata, hp, ho, except_bind_ok, except_bind_error] at h
    | ok src =>
      simp only [metadata, hp, ho, except_bind_ok] at h
      cases hm : exceptMap (fun a => env.sentinel_min_max_worker a pmin pmax)
          (metadataBands.map (fun band =>
            cbersAddress key ++ "/" ++ sceneid ++ "_BAND" ++ band ++ ".tif")) with
      | error e => rw [hm, except_bind_error] at h; exact absurd h (by simp)
      | ok rs =>
        rw [hm, except_bind_ok] at h
        rw [exceptMap_map] at hm
        have hlen := exceptMap_ok_length _ _ rs hm
        match rs, hlen, hm, h with
        | [r0, r1, r2, r3], _, hm, h =>
          refine ⟨r0, r2, r3, ?_, ?_, ?_, ?_, ?_⟩
          · have h5 := exceptMap_ok_get? _ metadataBands [r0, r1, r2, r3] hm 0 "5" rfl
            rw [← except_toOption_eq_some]
            simpa [bandPath] using h5.symm
          · have h6 := exceptMap_ok_get? _ metadataBands [r0, r1, r2, r3] hm 2 "6" rfl
            rw [← except_toOption_eq_some]
            simpa [bandPath] using h6.symm
          · have h8 := exceptMap_ok_get? _ metadataBands [r0, r1, r2, r3] hm 3 "8" rfl
            rw [← except_toOption_eq_some]
            simpa [bandPath] using h8.symm
          · have hinfo : info = ⟨sceneid, env.transform_bounds src.crs "epsg:4326" src.bounds 21,
                pydict (metadataBands.zip [r0, r1, r2, r3])⟩ := by
              injection h with h; exact h.symm
            subst hinfo
            rfl
          · have hinfo : info = ⟨sceneid, env.transform_bounds src.crs "epsg:4326" src.bounds 21,
                pydict (metadataBands.zip [r0, r1, r2, r3])⟩ := by
              injection h with h; exact h.symm
            subst hinfo
            rfl

theorem c5_witness :
    dictLookup (pydict (metadataBands.zip
        ([(1, 2), (3, 4), (5, 6), (7, 8)] : List (Int × Int)))) "6" =
      some ((5 : Int), (6 : Int)) ∧
    ∃ r0 r2 r3 : Int × Int,
      envA0.sentinel_min_max_worker (bandPath "K" "S" "5") 2 98 = .ok r0 ∧
      envA0.sentinel_min_max_worker (bandPath "K" "S" "6") 2 98 = .ok r2 ∧
      envA0.sentinel_min_max_worker (bandPath "K" "S" "8") 2 98 = .ok r3 ∧
      (pydict (metadataBands.zip [(2, 98), (2, 98), (2, 98), (2, 98)]) :
        List (String × (Int × Int))).length = 3 := by
  have hc := c5_metadata_band_mapping envA0 "S" 2 98 "K"
    ⟨"S", rect1, pydict (metadataBands.zip [(2, 98), (2, 98), (2, 98), (2, 98)])⟩ rfl rfl
  refine ⟨?_, ?_⟩
  · have := hc.2.2.1 [(1, 2), (3, 4), (5, 6), (7, 8)] rfl
    simpa using this
  · obtain ⟨r0, r2, r3, h0, h2, h3, _, hlen⟩ := hc.2.2.2
    exact ⟨r0, r2, r3, h0, h2, h3, hlen⟩

/-- C9: `bounds` consults exactly one raster, the fixed `_BAND5.tif`
reference band: an open failure at that single path is the call's failure; a
successful open yields exactly the densified (`densify_pts = 21 ≥ 21`)
reprojection of the raster's native-CRS bounds to `epsg:4326`; and the
result depends on the environment's raster reader only through its answer at
that one reference path, so no other raster is ever opened. -/
theorem c9_bounds_single_reference_open (env env' : Env) (sceneid : String)
    (key : String) (src : Raster) (e : PyErr) :
    (env.cbers_parse_scene_id sceneid = .ok key →
      env.rasterOpen (cbersAddress key ++ "/" ++ sceneid ++ "_BAND5.tif") = .error e →
      bounds env sceneid = .error e) ∧
    (env.cbers_parse_scene_id sceneid = .ok key →
      env.rasterOpen (cbersAddress key ++ "/" ++ sceneid ++ "_BAND5.tif") = .ok src →
      bounds env sceneid =
        .ok ⟨sceneid, env.transform_bounds src.crs "epsg:4326" src.bounds 21⟩) ∧
    (env.cbers_parse_scene_id sceneid = env'.cbers_parse_scene_id sceneid →
      env.transform_bounds = env'.transform_bounds →
      (∀ k, env.cbers_parse_scene_id sceneid = .ok k →
        env.rasterOpen (cbersAddress k ++ "/" ++ sceneid ++ "_BAND5.tif") =
          env'.rasterOpen (cbersAddress k ++ "/" ++ sceneid ++ "_BAND5.tif")) →
      bounds env sceneid = bounds env' sceneid) := by
  refine ⟨?_, ?_, ?_⟩
  · intro hp ho; simp [bounds, hp, ho, except_bind_ok, except_bind_error]
  · intro hp ho; simp [bounds, hp, ho, except_bind_ok, except_pure]
  · intro hpar htr hop
    cases hp : env.cbers_parse_scene_id sceneid with
    | error e0 =>
      have hp' : env'.cbers_parse_scene_id sceneid = .error e0 := by rw [← hpar, hp]
      simp [bounds, hp, hp', except_bind_error]
    | ok k =>
      have hp' : env'.cbers_parse_scene_id sceneid = .ok k := by rw [← hpar, hp]
      have ho := hop k hp
      simp only [bounds, hp, hp', except_bind_ok]
      rw [ho, htr]

theorem c9_witness :
    bounds envOpenFail "S" = .error (.ioError "no asset") ∧
    bounds envA0 "S" = .ok ⟨"S", rect1⟩ ∧
    bounds envA0 "S" = bounds envA0 "S" := by
  refine ⟨?_, ?_, ?_⟩
  · exact (c9_bounds_single_reference_open envOpenFail envOpenFail "S" "K"
      ⟨"x", rect1⟩ (.ioError "no asset")).1 rfl rfl
  · exact (c9_bounds_single_reference_open envA0 envA0 "S" "K"
      ⟨"epsg:32645", rect1⟩ (.ioError "x")).2.1 rfl rfl
  · exact (c9_bounds_single_reference_open envA0 envA0 "S" "K"
      ⟨"epsg:32645", rect1⟩ (.ioError "x")).2.2 rfl rfl (fun _ _ => rfl)

/-- C8: in both fan-outs — `tile`'s band readers and `metadata`'s statistics
workers — the first failing worker's exception (in submission order, the
order the result iterator re-raises in) propagates verbatim to the caller
and the whole call returns that error: no partial tile stack and no partial
band-statistics mapping is ever produced, and nothing is retried. -/
theorem c8_first_worker_error_propagates (env : Env) (sceneid : String)
    (tile_x tile_y tile_z : Int) (tilesize : Nat) (key : String) (src : Raster)
    (bs : List String) (i : Nat) (b : String) (e : PyErr)
    (pmin pmax : Int) (key' : String) (psrc : Raster) (i' : Nat) (band : String)
    (e' : PyErr) :
    (env.cbers_parse_scene_id sceneid = .ok key →
      env.rasterOpen (cbersAddress key ++ "/" ++ sceneid ++ "_BAND5.tif") = .ok src →
      tile_exists env (env.transform_bounds src.crs "epsg:4326" src.bounds 21)
        tile_z tile_x tile_y = true →
      bs[i]? = some b →
      env.tile_band_worker (bandPath key sceneid b)
        (env.xy_bounds tile_x tile_y tile_z) tilesize = .error e →
      (∀ j, j < i → ∀ b', bs[j]? = some b' →
        ∃ g, env.tile_band_worker (bandPath key sceneid b')
          (env.xy_bounds tile_x tile_y tile_z) tilesize = .ok g) →
      tile env sceneid tile_x tile_y tile_z (Rgb.tup bs) tilesize = .error e) ∧
    (env.cbersl_parse_scene_id sceneid = .ok key' →
      env.rasterOpen (previewPath (cbersAddress key')) = .ok psrc →
      metadataBands[i']? = some band →
      env.sentinel_min_max_worker (bandPath key' sceneid band) pmin pmax = .error e' →
      (∀ j, j < i' → ∀ band', metadataBands[j]? = some band' →
        ∃ r, env.sentinel_min_max_worker (bandPath key' sceneid band') pmin pmax = .ok r) →
      metadata env sceneid pmin pmax = .error e') := by
  constructor
  · intro hp ho ht hib hw hprev
    have hs : tileStep1 env sceneid =
        .ok (key, env.transform_bounds src.crs "epsg:4326" src.bounds 21) := by
      simp [tileStep1, hp, ho, except_bind_ok]
    have hmap : exceptMap (fun b' => env.tile_band_worker (bandPath key sceneid b')
        (env.xy_bounds tile_x tile_y tile_z) tilesize) bs = .error e :=
      exceptMap_error_at _ bs i b e hib hw hprev
    simp only [tile, hs, except_bind_ok, ht, if_true, Rgb.toList]
    simp only [tileFanOut]
    rw [exceptMap_map]
    rw [hmap, except_bind_error]
  · intro hp ho hib hw hprev
    simp only [bandPath] at hw hprev
    have hmap : exceptMap (fun band' => env.sentinel_min_max_worker
        (cbersAddress key' ++ "/" ++ sceneid ++ "_BAND" ++ band' ++ ".tif") pmin pmax)
        metadataBands = .error e' :=
      exceptMap_error_at _ metadataBands i' band e' hib hw hprev
    simp only [metadata, hp, ho, except_bind_ok]
    rw [exceptMap_map]
    rw [hmap, except_bind_error]

theorem c8_witness :
    tile envWFail "S" 0 0 1 (Rgb.tup ["6", "5"]) 256 = .error (.ioError "band 5 gone") ∧
    metadata envWFail "S" 2 98 = .error (.ioError "band 8 gone") := by
  have hc := c8_first_worker_error_propagates envWFail "S" 0 0 1 256 "K"
    ⟨"epsg:32645", rect1⟩ ["6", "5"] 1 "5" (.ioError "band 5 gone")
    2 98 "K" ⟨"epsg:32645", rect1⟩ 3 "8" (.ioError "band 8 gone")
  constructor
  · refine hc.1 rfl rfl (by decide) rfl rfl ?_
    intro j hj b' hb'
    have hj0 : j = 0 := Nat.lt_one_iff.mp hj
    subst hj0
    simp only [List.getElem?_cons_zero, Option.some.injEq] at hb'
    subst hb'
    exact ⟨[[1]], rfl⟩
  · refine hc.2 rfl rfl rfl rfl ?_
    intro j hj band' hb'
    refine ⟨(2, 98), ?_⟩
    match j, hj with
    | 0, _ =>
      simp only [metadataBands, List.getElem?_cons_zero, Option.some.injEq] at hb'
      subst hb'
      rfl
    | 1, _ =>
      simp only [metadataBands, List.getElem?_cons_succ, List.getElem?_cons_zero,
        Option.some.injEq] at hb'
      subst hb'
      rfl
    | 2, _ =>
      simp only [metadataBands, List.getElem?_cons_succ, List.getElem?_cons_zero,
        Option.some.injEq] at hb'
      subst hb'
      rfl

theorem cachedCallE_stores [DecidableEq K] (c : LRUCache K V) (k : K)
    (f : Unit → Except PyErr V) (v : V) (h : (cachedCallE c k f).1 = .ok v) :
    ∃ rest, (cachedCallE c k f).2.entries = (k, v) :: rest := by
  cases hfind : c.entries.find? (fun p => decide (p.1 = k)) with
  | some p =>
    simp only [cachedCallE, hfind, Except.ok.injEq] at h ⊢
    exact ⟨_, by rw [h]⟩
  | none =>
    cases hf : f () with
    | error e => simp [cachedCallE, hfind, hf] at h
    | ok w =>
      simp only [cachedCallE, hfind, hf, Except.ok.injEq] at h ⊢
      subst h
      have hms : lru_maxsize = 127 + 1 := rfl
      rw [hms, List.take_succ_cons]
      exact ⟨_, rfl⟩

theorem cachedCallE_repeat_hit [DecidableEq K] (c : LRUCache K V) (k : K)
    (f g : Unit → Except PyErr V) (v : V) (h : (cachedCallE c k f).1 = .ok v) :
    (cachedCallE (cachedCallE c k f).2 k g).1 = .ok v := by
  obtain ⟨rest, hrest⟩ := cachedCallE_stores c k f v h
  generalize (cachedCallE c k f).2 = c' at hrest ⊢
  unfold cachedCallE
  rw [hrest]
  simp [List.find?]

/-- C4 (amended): `bounds`, `metadata` and `tile` are each memoized per
argument tuple, but by `cachetools.func.lru_cache` at its default bounded
capacity of 128 entries, not with unbounded retention.  While a key's entry
remains cached, a repeated call with the same argument tuple returns the
stored result unchanged — even if the underlying environment (the remote
assets) changed in between — shown here for an immediate repeat of each of
the three calls. -/
theorem c4_lru_cached_repeat_is_stable (cb : LRUCache String Info)
    (cm : LRUCache (String × Int × Int) MetaInfo)
    (ct : LRUCache (String × Int × Int × Int × Rgb × Nat) (List Grid))
    (env env' : Env) (sceneid : String) (pmin pmax : Int)
    (tile_x tile_y tile_z : Int) (rgb : Rgb) (tilesize : Nat)
    (info : Info) (minfo : MetaInfo) (out : List Grid) :
    ((cachedBounds cb env sceneid).1 = .ok info →
      (cachedBounds (cachedBounds cb env sceneid).2 env' sceneid).1 = .ok info) ∧
    ((cachedMetadata cm env sceneid pmin pmax).1 = .ok minfo →
      (cachedMetadata (cachedMetadata cm env sceneid pmin pmax).2
        env' sceneid pmin pmax).1 = .ok minfo) ∧
    ((cachedTile ct env sceneid tile_x tile_y tile_z rgb tilesize).1 = .ok out →
      (cachedTile (cachedTile ct env sceneid tile_x tile_y tile_z rgb tilesize).2
        env' sceneid tile_x tile_y tile_z rgb tilesize).1 = .ok out) := by
  refine ⟨?_, ?_, ?_⟩
  · intro h; exact cachedCallE_repeat_hit cb sceneid _ _ info h
  · intro h; exact cachedCallE_repeat_hit cm (sceneid, pmin, pmax) _ _ minfo h
  · intro h
    exact cachedCallE_repeat_hit ct (sceneid, tile_x, tile_y, tile_z, rgb, tilesize)
      _ _ out h

theorem c4_witness :
    (cachedBounds (cachedBounds ⟨[]⟩ envA0 "A").2 envB "A").1 = .ok ⟨"A", rect1⟩ ∧
    (cachedMetadata (cachedMetadata ⟨[]⟩ envA0 "A" 2 98).2 envB "A" 2 98).1 =
      .ok ⟨"A", rect1, pydict (metadataBands.zip [(2, 98), (2, 98), (2, 98), (2, 98)])⟩ ∧
    (cachedTile (cachedTile ⟨[]⟩ envA0 "A" 0 0 1 (Rgb.tup ["5"]) 256).2
      envB "A" 0 0 1 (Rgb.tup ["5"]) 256).1 = .ok [[[1]]] := by
  have hc := c4_lru_cached_repeat_is_stable ⟨[]⟩ ⟨[]⟩ ⟨[]⟩ envA0 envB "A" 2 98 0 0 1
    (Rgb.tup ["5"]) 256 ⟨"A", rect1⟩
    ⟨"A", rect1, pydict (metadataBands.zip [(2, 98), (2, 98), (2, 98), (2, 98)])⟩ [[[1]]]
  exact ⟨hc.1 rfl, hc.2.1 rfl, hc.2.2 rfl⟩

/-- The scene id used in the eviction scenario. -/
def sid0 : String := "A"

/-- The first memoized `bounds` call of the process, on an empty cache. -/
def firstBoundsCall : Except PyErr Info × LRUCache String Info :=
  cachedBounds ⟨[]⟩ envA0 sid0

/-- 128 further distinct scene ids requested after `sid0`. -/
def evictIds : List String := (List.range 128).map (fun i => String.mk [Char.ofNat (160 + i)])

/-- The cache after `sid0` and then 128 other distinct scenes were looked
up: one more distinct key than the LRU capacity, so `sid0` is evicted. -/
def cacheAfterEvict : LRUCache String Info :=
  evictIds.foldl (fun c s => (cachedBounds c envA0 s).2) firstBoundsCall.2

set_option maxRecDepth 40000 in
/-- C4 is false as stated: the memoization is an LRU cache with default
capacity 128, so retention is not unbounded and eviction does occur.  In one
process: `bounds(sid0)` is called and cached, 128 other scenes are looked
up, `sid0`'s entry is evicted (`get` returns `none`), and — the underlying
asset having been rewritten meanwhile (`envB`) — the repeated call
`bounds(sid0)` recomputes and returns a different 4-tuple than the first
call, contradicting both "no eviction" and "same 4-tuple on every repeated
call within one process". -/
theorem c4_counterexample :
    LRUCache.get cacheAfterEvict sid0 = none ∧
    (cachedBounds cacheAfterEvict envB sid0).1 = .ok ⟨sid0, rect2⟩ ∧
    firstBoundsCall.1 = .ok ⟨sid0, rect1⟩ ∧
    (⟨sid0, rect2⟩ : Info) ≠ ⟨sid0, rect1⟩ := by
  refine ⟨rfl, rfl, rfl, by decide⟩
